import Mathlib

/-!
Shallow embedding of `fl5-lib/python/neuralfoil_bridge.py`.

The bridge exposes two batch entry points (`analyze_foil_at_cls`,
`analyze_foil_at_alphas`) and a CLI wrapper (`run_cli_mode`).  The external
collaborators — airfoil geometry construction (`Airfoil(...)`) and the
NeuralFoil surrogate evaluation (`get_aero_from_neuralfoil`) — are opaque
black boxes that may raise; they are modelled by an `Env` of `Except`-valued
functions.  Python floats are modelled by `ℚ`; every claim under study is
about control flow, list shapes and exact update rules, none about float
rounding.
-/

set_option autoImplicit false

namespace NeuralfoilBridge

/-- Result of one scalar evaluator call: the fields of the `aero` dict that
the bridge reads (`CL`, `CD`, `CM`, `Top_Xtr`, `Bot_Xtr`), after the
`np.atleast_1d(...)[0]` scalar extraction. -/
structure AeroPoint where
  CL : ℚ
  CD : ℚ
  CM : ℚ
  Top_Xtr : ℚ
  Bot_Xtr : ℚ
deriving DecidableEq

/-- Result of one batched evaluator call (arrays, as used by
`analyze_foil_at_alphas`), after `.tolist()`. -/
structure BatchAero where
  CL : List ℚ
  CD : List ℚ
  CM : List ℚ
  Top_Xtr : List ℚ
  Bot_Xtr : List ℚ
deriving DecidableEq

/-- The opaque external collaborators of the bridge.
`mkAirfoil` models `np.column_stack` + `Airfoil(name=..., coordinates=...)`
(which may raise on degenerate input); `eval` models a scalar
`airfoil.get_aero_from_neuralfoil(alpha, Re, mach, n_crit, xtr_upper,
xtr_lower, model_size)` call; `evalBatch` models the same call on arrays.
An `Except.error` models a raised Python exception carrying `str(e)`. -/
structure Env where
  mkAirfoil : List ℚ → List ℚ → Except String Unit
  eval : ℚ → ℚ → ℚ → ℚ → ℚ → ℚ → String → Except String AeroPoint
  evalBatch : List ℚ → List ℚ → ℚ → ℚ → ℚ → ℚ → String → Except String BatchAero

/-- The returned dictionary shape shared by both entry points: `success`,
optional `error` string, and the six result arrays. -/
structure AnalyzeResult where
  success : Bool
  error : Option String
  alpha : List ℚ
  cd : List ℚ
  cl : List ℚ
  cm : List ℚ
  xtr_top : List ℚ
  xtr_bot : List ℚ
deriving DecidableEq

/-- The failure envelope built in each `except Exception as e:` branch:
`success: False`, the error string, and all six arrays empty
(lines 122-131 and 192-201 of the source). -/
def failureEnvelope (e : String) : AnalyzeResult :=
  { success := false, error := some e, alpha := [], cd := [], cl := [],
    cm := [], xtr_top := [], xtr_bot := [] }

/-- Python's builtin `abs` on a rational value. -/
def absQ (x : ℚ) : ℚ := if x < 0 then -x else x

/-- Line 109: `alpha_guess = max(-20.0, min(20.0, alpha_guess))`. -/
def clamp (x : ℚ) : ℚ := max (-20) (min 20 x)

/-- The inner solver loop of `analyze_foil_at_cls` (lines 88-109):

```
for iteration in range(20):
    aero = airfoil.get_aero_from_neuralfoil(alpha=alpha_guess, ...)
    cl_result = np.atleast_1d(aero['CL'])[0]
    cl_error = target_cl - cl_result
    if abs(cl_error) < 0.001:  # converged
        break
    alpha_guess += cl_error * 10.0
    alpha_guess = max(-20.0, min(20.0, alpha_guess))
```

`fuel` is the number of loop iterations still available after the current
one, so the initial call with `fuel = 19` performs at most the 20
evaluations of `range(20)`.  The returned pair is `(alpha_guess, aero)` as
read after the loop (lines 112-117): on `break` the unmodified
`alpha_guess`, on fuel exhaustion the post-update clamped `alpha_guess`,
together with the `aero` of the last evaluator call. -/
def solveLoop (ev : ℚ → Except String AeroPoint) (target_cl : ℚ) :
    Nat → ℚ → Except String (ℚ × AeroPoint)
  | 0, alpha_guess =>
    match ev alpha_guess with
    | Except.error e => Except.error e
    | Except.ok aero =>
      let cl_error := target_cl - aero.CL
      if absQ cl_error < 1/1000 then
        Except.ok (alpha_guess, aero)
      else
        Except.ok (clamp (alpha_guess + cl_error * 10), aero)
  | fuel + 1, alpha_guess =>
    match ev alpha_guess with
    | Except.error e => Except.error e
    | Except.ok aero =>
      let cl_error := target_cl - aero.CL
      if absQ cl_error < 1/1000 then
        Except.ok (alpha_guess, aero)
      else
        solveLoop ev target_cl fuel (clamp (alpha_guess + cl_error * 10))

/-- One station of `analyze_foil_at_cls`: initial guess
`alpha_guess = target_cl * 10.0` (line 86), then the 20-iteration loop. -/
def solveStation (ev : ℚ → Except String AeroPoint) (target_cl : ℚ) :
    Except String (ℚ × AeroPoint) :=
  solveLoop ev target_cl 19 (target_cl * 10)

/-- The `for i in range(n_points)` station loop (lines 80-117):
`target_cl = cl_values[i]`, `re = re_values[i]` — reading `re_values[i]`
raises `IndexError` when `re_values` is shorter than `cl_values`, which the
outer `except` catches. -/
def stationsLoop (ev : ℚ → ℚ → Except String AeroPoint) :
    List ℚ → List ℚ → Except String (List (ℚ × AeroPoint))
  | [], _ => Except.ok []
  | _ :: _, [] => Except.error "list index out of range"
  | target_cl :: cls, re :: res =>
    match solveStation (fun a => ev a re) target_cl with
    | Except.error e => Except.error e
    | Except.ok st =>
      match stationsLoop ev cls res with
      | Except.error e => Except.error e
      | Except.ok rest => Except.ok (st :: rest)

/-- The `try:` body of `analyze_foil_at_cls` (lines 64-119): build the
airfoil, run every station, and assemble the success dictionary with one
entry appended per station in input order. -/
def analyzeAtClsBody (env : Env) (x_coords y_coords cl_values re_values : List ℚ)
    (n_crit xtr_top xtr_bot mach : ℚ) (model_size : String) :
    Except String AnalyzeResult :=
  match env.mkAirfoil x_coords y_coords with
  | Except.error e => Except.error e
  | Except.ok _ =>
    match stationsLoop
        (fun alpha re => env.eval alpha re mach n_crit xtr_top xtr_bot model_size)
        cl_values re_values with
    | Except.error e => Except.error e
    | Except.ok stations =>
      Except.ok {
        success := true
        error := none
        alpha := stations.map (fun s => s.1)
        cd := stations.map (fun s => s.2.CD)
        cl := stations.map (fun s => s.2.CL)
        cm := stations.map (fun s => s.2.CM)
        xtr_top := stations.map (fun s => s.2.Top_Xtr)
        xtr_bot := stations.map (fun s => s.2.Bot_Xtr) }

/-- `analyze_foil_at_cls` (lines 26-131): the `try:` body, with every raised
exception caught and turned into the failure envelope. -/
def analyze_foil_at_cls (env : Env) (x_coords y_coords cl_values re_values : List ℚ)
    (n_crit xtr_top xtr_bot mach : ℚ) (model_size : String) : AnalyzeResult :=
  match analyzeAtClsBody env x_coords y_coords cl_values re_values
      n_crit xtr_top xtr_bot mach model_size with
  | Except.ok r => r
  | Except.error e => failureEnvelope e

/-- The `try:` body of `analyze_foil_at_alphas` (lines 162-189): build the
airfoil, one batched evaluator call, and return its arrays directly;
`alpha` is `alphas.tolist()`, i.e. the input `alpha_values`. -/
def analyzeAtAlphasBody (env : Env) (x_coords y_coords alpha_values re_values : List ℚ)
    (n_crit xtr_top xtr_bot mach : ℚ) (model_size : String) :
    Except String AnalyzeResult :=
  match env.mkAirfoil x_coords y_coords with
  | Except.error e => Except.error e
  | Except.ok _ =>
    match env.evalBatch alpha_values re_values mach n_crit xtr_top xtr_bot model_size with
    | Except.error e => Except.error e
    | Except.ok aero =>
      Except.ok {
        success := true
        error := none
        alpha := alpha_values
        cd := aero.CD
        cl := aero.CL
        cm := aero.CM
        xtr_top := aero.Top_Xtr
        xtr_bot := aero.Bot_Xtr }

/-- `analyze_foil_at_alphas` (lines 134-201). -/
def analyze_foil_at_alphas (env : Env) (x_coords y_coords alpha_values re_values : List ℚ)
    (n_crit xtr_top xtr_bot mach : ℚ) (model_size : String) : AnalyzeResult :=
  match analyzeAtAlphasBody env x_coords y_coords alpha_values re_values
      n_crit xtr_top xtr_bot mach model_size with
  | Except.ok r => r
  | Except.error e => failureEnvelope e

/-- The JSON input of CLI mode after `json.loads` and the required-field
lookups (lines 213-219); the optional fields keep `none` when absent so
that the `.get(key, default)` defaults of lines 220-224 can be applied by
`run_cli_mode` itself. -/
structure CliInput where
  x_coords : List ℚ
  y_coords : List ℚ
  cl_values : List ℚ
  re_values : List ℚ
  n_crit : Option ℚ
  xtr_top : Option ℚ
  xtr_bot : Option ℚ
  mach : Option ℚ
  model_size : Option String

/-- The environment of CLI mode: the bridge collaborators plus the opaque
front end `json.loads` + required-field extraction, whose raised exceptions
(malformed JSON, missing keys) become `Except.error` with `str(e)`. -/
structure CliEnv extends Env where
  parse : String → Except String CliInput

/-- `run_cli_mode` (lines 204-255) on a given stdin content: returns the one
JSON object printed to stdout and the process exit code.  The success path
prints the `analyze_foil_at_cls` result (with the `.get` defaults
`n_crit=9.0, xtr_top=1.0, xtr_bot=1.0, mach=0.0, model_size="xlarge"`) and
exits 0; the `except` path prints the failure envelope with message
`"CLI mode error: " + str(e)` and exits 1. -/
def run_cli_mode (cenv : CliEnv) (stdin : String) : AnalyzeResult × Nat :=
  match cenv.parse stdin with
  | Except.ok inp =>
    (analyze_foil_at_cls cenv.toEnv inp.x_coords inp.y_coords inp.cl_values inp.re_values
      (inp.n_crit.getD 9) (inp.xtr_top.getD 1) (inp.xtr_bot.getD 1) (inp.mach.getD 0)
      (inp.model_size.getD "xlarge"), 0)
  | Except.error e =>
    (failureEnvelope ("CLI mode error: " ++ e), 1)

instance exceptDecEq {ε α : Type} [DecidableEq ε] [DecidableEq α] :
    DecidableEq (Except ε α) := fun x y =>
  match x, y with
  | Except.ok a, Except.ok b =>
    if h : a = b then isTrue (by rw [h]) else
      isFalse (by intro hc; cases hc; exact h rfl)
  | Except.ok _, Except.error _ => isFalse (by intro hc; cases hc)
  | Except.error _, Except.ok _ => isFalse (by intro hc; cases hc)
  | Except.error e, Except.error e' =>
    if h : e = e' then isTrue (by rw [h]) else
      isFalse (by intro hc; cases hc; exact h rfl)

/-- A total (never-raising) scalar evaluator, for stating properties of the
solver when no exception occurs. -/
def pureEv (f : ℚ → AeroPoint) : ℚ → Except String AeroPoint :=
  fun a => Except.ok (f a)

/-- One update of the solver loop (lines 106-109):
`alpha_guess += cl_error * 10.0` then the clamp to `[-20, 20]`. -/
def alphaStep (f : ℚ → AeroPoint) (target_cl a : ℚ) : ℚ :=
  clamp (a + (target_cl - (f a).CL) * 10)

/-- The sequence of alphas at which the solver loop evaluates a total
evaluator `f`, starting from guess `a0`. -/
def alphaSeq (f : ℚ → AeroPoint) (target_cl a0 : ℚ) : Nat → ℚ
  | 0 => a0
  | n + 1 => alphaStep f target_cl (alphaSeq f target_cl a0 n)

/-- The loop's convergence test (line 102) at the `n`-th evaluated alpha:
`abs(cl_error) < 0.001`. -/
def convergedAt (f : ℚ → AeroPoint) (target_cl a0 : ℚ) (n : Nat) : Prop :=
  absQ (target_cl - (f (alphaSeq f target_cl a0 n)).CL) < 1/1000

instance (f : ℚ → AeroPoint) (target_cl a0 : ℚ) (n : Nat) :
    Decidable (convergedAt f target_cl a0 n) := by
  unfold convergedAt; infer_instance

/-- A linear total evaluator for concrete runs: CL grows by 0.1 per degree,
the slope the solver's fixed gain assumes. -/
def fLin : ℚ → AeroPoint := fun a => ⟨a / 10, 1, 2, 3, 4⟩

/-- A constant-CL total evaluator: a nonzero target can never be reached, so
a station exhausts the 20-iteration cap. -/
def fZero : ℚ → AeroPoint := fun _ => ⟨0, 1, 2, 3, 4⟩

/-- A shallow-slope total evaluator (CL = alpha/100): a solve for a small
target neither converges within 20 iterations nor saturates the clamp, so
its evaluated alphas keep moving on every iteration. -/
def fShallow : ℚ → AeroPoint := fun a => ⟨a / 100, 1, 2, 3, 4⟩

/-- Environment whose scalar evaluator is total with CL identically 0. -/
def envZero : Env :=
  { mkAirfoil := fun _ _ => Except.ok ()
    eval := fun a _ _ _ _ _ _ => Except.ok (fZero a)
    evalBatch := fun alphas _ _ _ _ _ _ =>
      Except.ok ⟨alphas.map (fun a => (fZero a).CL), alphas.map (fun _ => 1),
        alphas.map (fun _ => 2), alphas.map (fun _ => 3), alphas.map (fun _ => 4)⟩ }

/-- Environment whose scalar evaluator is total with CL = alpha/100. -/
def envShallow : Env :=
  { mkAirfoil := fun _ _ => Except.ok ()
    eval := fun a _ _ _ _ _ _ => Except.ok (fShallow a)
    evalBatch := fun _ _ _ _ _ _ _ => Except.error "not used" }

/-- Environment whose evaluator raises on every call, as NeuralFoil does on
degenerate geometry. -/
def envRaise : Env :=
  { mkAirfoil := fun _ _ => Except.ok ()
    eval := fun _ _ _ _ _ _ _ => Except.error "degenerate geometry"
    evalBatch := fun _ _ _ _ _ _ _ => Except.error "degenerate geometry" }

/-- Environment with a well-behaved batched evaluator mapping each input
alpha elementwise, as NeuralFoil's vectorized call does. -/
def envSweep : Env :=
  { mkAirfoil := fun _ _ => Except.ok ()
    eval := fun _ _ _ _ _ _ _ => Except.error "not used"
    evalBatch := fun alphas _ _ _ _ _ _ =>
      Except.ok ⟨alphas.map (fun a => a / 10), alphas.map (fun _ => 1),
        alphas.map (fun _ => 2), alphas.map (fun _ => 3), alphas.map (fun _ => 4)⟩ }

/-- A scalar evaluator defined only at alpha = 1000 (raising everywhere
else): a successful solve through it certifies that every evaluator call it
made was at alpha = 1000. -/
def evOnly1000 : ℚ → Except String AeroPoint := fun a =>
  if a = 1000 then Except.ok ⟨100, 1, 2, 3, 4⟩ else Except.error "unexpected alpha"

/-- CLI environment whose front end raises on any stdin, with the message
`json.loads` produces for malformed input. -/
def cenvBad : CliEnv :=
  { toEnv := envZero
    parse := fun _ => Except.error "Expecting value: line 1 column 1 (char 0)" }

/-- The arrays `envSweep.evalBatch` returns for the inputs `[0, 5, -3]`. -/
def bSweep : BatchAero :=
  ⟨[0, 1/2, -3/10], [1, 1, 1], [2, 2, 2], [3, 3, 3], [4, 4, 4]⟩

/-- The dictionary of the one-station run under `envZero` with target 1:
the station exhausts the cap at the clamp bound. -/
def rOneStation : AnalyzeResult :=
  { success := true, error := none, alpha := [20], cd := [1], cl := [0],
    cm := [2], xtr_top := [3], xtr_bot := [4] }

/-- The dictionary of the two-station run under `envZero` with targets
[1, 1/2]: both stations exhaust the cap at the clamp bound. -/
def rTwoStations : AnalyzeResult :=
  { success := true, error := none, alpha := [20, 20], cd := [1, 1],
    cl := [0, 0], cm := [2, 2], xtr_top := [3, 3], xtr_bot := [4, 4] }

theorem alphaSeq_succ_shift (f : ℚ → AeroPoint) (t a0 : ℚ) (n : Nat) :
    alphaSeq f t a0 (n + 1) = alphaSeq f t (alphaStep f t a0) n := by
  induction n with
  | zero => rfl
  | succ n ih =>
    simp only [alphaSeq]
    rw [← ih]
    simp only [alphaSeq]

theorem convergedAt_succ_shift (f : ℚ → AeroPoint) (t a0 : ℚ) (n : Nat) :
    convergedAt f t a0 (n + 1) ↔ convergedAt f t (alphaStep f t a0) n := by
  unfold convergedAt
  rw [alphaSeq_succ_shift]

theorem solveLoop_pure_stops_at_first (f : ℚ → AeroPoint) (t : ℚ) :
    ∀ (fuel k : Nat) (a0 : ℚ), k ≤ fuel →
      (∀ m, m < k → ¬ convergedAt f t a0 m) → convergedAt f t a0 k →
      solveLoop (pureEv f) t fuel a0 =
        Except.ok (alphaSeq f t a0 k, f (alphaSeq f t a0 k)) := by
  intro fuel
  induction fuel with
  | zero =>
    intro k a0 hk _ hconv
    have hk0 : k = 0 := Nat.le_zero.mp hk
    subst hk0
    have h0 : absQ (t - (f a0).CL) < 1/1000 := hconv
    simp only [solveLoop, pureEv, alphaSeq]
    rw [if_pos h0]
  | succ fuel ih =>
    intro k a0 hk hmin hconv
    cases k with
    | zero =>
      have h0 : absQ (t - (f a0).CL) < 1/1000 := hconv
      simp only [solveLoop, pureEv, alphaSeq]
      rw [if_pos h0]
    | succ k =>
      have hnot0 : ¬ absQ (t - (f a0).CL) < 1/1000 := hmin 0 (Nat.succ_pos k)
      simp only [solveLoop, pureEv]
      rw [if_neg hnot0]
      rw [alphaSeq_succ_shift]
      exact ih k (alphaStep f t a0) (Nat.succ_le_succ_iff.mp hk)
        (fun m hm hc =>
          hmin (m + 1) (Nat.succ_lt_succ hm) ((convergedAt_succ_shift f t a0 m).mpr hc))
        ((convergedAt_succ_shift f t a0 k).mp hconv)

theorem solveLoop_pure_exhausts (f : ℚ → AeroPoint) (t : ℚ) :
    ∀ (fuel : Nat) (a0 : ℚ),
      (∀ m, m ≤ fuel → ¬ convergedAt f t a0 m) →
      solveLoop (pureEv f) t fuel a0 =
        Except.ok (alphaSeq f t a0 (fuel + 1), f (alphaSeq f t a0 fuel)) := by
  intro fuel
  induction fuel with
  | zero =>
    intro a0 hnone
    have hnot0 : ¬ absQ (t - (f a0).CL) < 1/1000 := hnone 0 (Nat.le_refl 0)
    simp only [solveLoop, pureEv, alphaSeq, alphaStep]
    rw [if_neg hnot0]
  | succ fuel ih =>
    intro a0 hnone
    have hnot0 : ¬ absQ (t - (f a0).CL) < 1/1000 := hnone 0 (Nat.zero_le _)
    simp only [solveLoop, pureEv]
    rw [if_neg hnot0]
    rw [alphaSeq_succ_shift f t a0 (fuel + 1), alphaSeq_succ_shift f t a0 fuel]
    exact ih (alphaStep f t a0)
      (fun m hm hc =>
        hnone (m + 1) (Nat.succ_le_succ hm) ((convergedAt_succ_shift f t a0 m).mpr hc))

theorem solveLoop_first_call_error (ev : ℚ → Except String AeroPoint) (t : ℚ)
    (fuel : Nat) (a : ℚ) (e : String) (h : ev a = Except.error e) :
    solveLoop ev t fuel a = Except.error e := by
  cases fuel <;> simp only [solveLoop, h]

theorem solveLoop_converged_first (ev : ℚ → Except String AeroPoint) (t : ℚ)
    (fuel : Nat) (a : ℚ) (p : AeroPoint) (hev : ev a = Except.ok p)
    (h : absQ (t - p.CL) < 1/1000) : solveLoop ev t fuel a = Except.ok (a, p) := by
  cases fuel <;> (simp only [solveLoop, hev]; rw [if_pos h])

theorem solveLoop_ok_shape (ev : ℚ → Except String AeroPoint) (t : ℚ) :
    ∀ (fuel : Nat) (a a' : ℚ) (p : AeroPoint),
      solveLoop ev t fuel a = Except.ok (a', p) →
      ∃ af, ev af = Except.ok p ∧
        ((absQ (t - p.CL) < 1/1000 ∧ a' = af) ∨
         (¬ absQ (t - p.CL) < 1/1000 ∧ a' = clamp (af + (t - p.CL) * 10))) := by
  intro fuel
  induction fuel with
  | zero =>
    intro a a' p h
    simp only [solveLoop] at h
    cases hev : ev a with
    | error e => rw [hev] at h; cases h
    | ok aero =>
      rw [hev] at h
      simp only at h
      by_cases hc : absQ (t - aero.CL) < 1/1000
      · rw [if_pos hc] at h
        have h1 : a = a' ∧ aero = p := by
          cases h; exact ⟨rfl, rfl⟩
        obtain ⟨h1, h2⟩ := h1
        subst h1; subst h2
        exact ⟨a, hev, Or.inl ⟨hc, rfl⟩⟩
      · rw [if_neg hc] at h
        have h1 : clamp (a + (t - aero.CL) * 10) = a' ∧ aero = p := by
          cases h; exact ⟨rfl, rfl⟩
        obtain ⟨h1, h2⟩ := h1
        subst h2
        exact ⟨a, hev, Or.inr ⟨hc, h1.symm⟩⟩
  | succ fuel ih =>
    intro a a' p h
    simp only [solveLoop] at h
    cases hev : ev a with
    | error e => rw [hev] at h; cases h
    | ok aero =>
      rw [hev] at h
      simp only at h
      by_cases hc : absQ (t - aero.CL) < 1/1000
      · rw [if_pos hc] at h
        have h1 : a = a' ∧ aero = p := by
          cases h; exact ⟨rfl, rfl⟩
        obtain ⟨h1, h2⟩ := h1
        subst h1; subst h2
        exact ⟨a, hev, Or.inl ⟨hc, rfl⟩⟩
      · rw [if_neg hc] at h
        exact ih _ a' p h

theorem stationsLoop_length (ev : ℚ → ℚ → Except String AeroPoint) :
    ∀ (cls res : List ℚ) (l : List (ℚ × AeroPoint)),
      stationsLoop ev cls res = Except.ok l → l.length = cls.length := by
  intro cls
  induction cls with
  | nil =>
    intro res l h
    simp only [stationsLoop] at h
    cases h
    rfl
  | cons t ts ih =>
    intro res l h
    cases res with
    | nil =>
      simp only [stationsLoop] at h
      exact Except.noConfusion h
    | cons re res =>
      simp only [stationsLoop] at h
      cases hst : solveStation (fun a => ev a re) t with
      | error e => rw [hst] at h; cases h
      | ok st =>
        rw [hst] at h
        simp only at h
        cases hrest : stationsLoop ev ts res with
        | error e => rw [hrest] at h; cases h
        | ok rest =>
          rw [hrest] at h
          simp only at h
          cases h
          simp only [List.length_cons]
          rw [ih res rest hrest]

theorem analyzeAtClsBody_ok_shape (env : Env)
    (x_coords y_coords cl_values re_values : List ℚ)
    (n_crit xtr_top xtr_bot mach : ℚ) (model_size : String) (r : AnalyzeResult)
    (h : analyzeAtClsBody env x_coords y_coords cl_values re_values
        n_crit xtr_top xtr_bot mach model_size = Except.ok r) :
    ∃ stations,
      stationsLoop
        (fun alpha re => env.eval alpha re mach n_crit xtr_top xtr_bot model_size)
        cl_values re_values = Except.ok stations ∧
      r = { success := true
            error := none
            alpha := stations.map (fun s => s.1)
            cd := stations.map (fun s => s.2.CD)
            cl := stations.map (fun s => s.2.CL)
            cm := stations.map (fun s => s.2.CM)
            xtr_top := stations.map (fun s => s.2.Top_Xtr)
            xtr_bot := stations.map (fun s => s.2.Bot_Xtr) } := by
  unfold analyzeAtClsBody at h
  cases hmk : env.mkAirfoil x_coords y_coords with
  | error e => rw [hmk] at h; cases h
  | ok u =>
    rw [hmk] at h
    simp only at h
    cases hst : stationsLoop
        (fun alpha re => env.eval alpha re mach n_crit xtr_top xtr_bot model_size)
        cl_values re_values with
    | error e => rw [hst] at h; cases h
    | ok stations =>
      rw [hst] at h
      simp only at h
      cases h
      exact ⟨stations, rfl, rfl⟩

/-- C1: on every input on which the `try:` body of `analyze_foil_at_cls`
raises no exception (neither the geometry constructor nor any evaluator
call), the returned dictionary is the body's dictionary, it has
`success = true`, and it carries one entry per requested station — even when
stations exhausted the 20-iteration cap without reaching
`abs(target_cl - CL) < 0.001`: the success flag is set before the station
loop and no code path depending on convergence modifies it or drops a
station's entry. -/
theorem C1_success_means_ran_without_raising (env : Env)
    (x_coords y_coords cl_values re_values : List ℚ)
    (n_crit xtr_top xtr_bot mach : ℚ) (model_size : String) (r : AnalyzeResult)
    (h : analyzeAtClsBody env x_coords y_coords cl_values re_values
        n_crit xtr_top xtr_bot mach model_size = Except.ok r) :
    analyze_foil_at_cls env x_coords y_coords cl_values re_values
        n_crit xtr_top xtr_bot mach model_size = r ∧
    r.success = true ∧ r.alpha.length = cl_values.length := by
  obtain ⟨stations, hst, hr⟩ :=
    analyzeAtClsBody_ok_shape env x_coords y_coords cl_values re_values
      n_crit xtr_top xtr_bot mach model_size r h
  refine ⟨?_, ?_, ?_⟩
  · unfold analyze_foil_at_cls
    rw [h]
  · rw [hr]
  · rw [hr]
    simp only [List.length_map]
    exact stationsLoop_length _ _ _ _ hst

/-- C2: schema of the per-station solver, for a run in which the evaluator
raises no exception: the zeroth evaluated alpha is the initial guess
`target_cl * 10.0`; each next evaluated alpha is the previous one updated by
adding `cl_error * 10.0` (and clamped, line 109) where
`cl_error = target_cl - CL`; the loop stops, leaving alpha unchanged, at the
first evaluation with `abs(cl_error) < 0.001`; and at most 20 evaluations
are made (indices 0 through 19), the loop otherwise exhausting after the
20th. -/
theorem C2_solver_iteration_schema (f : ℚ → AeroPoint) (t : ℚ) :
    alphaSeq f t (t * 10) 0 = t * 10 ∧
    (∀ n, alphaSeq f t (t * 10) (n + 1) =
      clamp (alphaSeq f t (t * 10) n + (t - (f (alphaSeq f t (t * 10) n)).CL) * 10)) ∧
    (∀ k, k ≤ 19 → (∀ m, m < k → ¬ convergedAt f t (t * 10) m) →
      convergedAt f t (t * 10) k →
      solveStation (pureEv f) t =
        Except.ok (alphaSeq f t (t * 10) k, f (alphaSeq f t (t * 10) k))) ∧
    ((∀ m, m ≤ 19 → ¬ convergedAt f t (t * 10) m) →
      solveStation (pureEv f) t =
        Except.ok (alphaSeq f t (t * 10) 20, f (alphaSeq f t (t * 10) 19))) := by
  refine ⟨rfl, fun n => rfl, fun k hk hmin hconv => ?_, fun hnone => ?_⟩
  · exact solveLoop_pure_stops_at_first f t 19 k (t * 10) hk hmin hconv
  · exact solveLoop_pure_exhausts f t 19 (t * 10) hnone

/-- C3: `run_cli_mode` produces, for every stdin content, exactly one output
object (the model returns it as the first component) and an exit code that
is 0 or 1: 0 exactly when the front end (JSON parse and required-field
extraction) raised no error, 1 on a raised error — in which case the printed
object is the failure envelope with `success: false` and the non-empty
error string `"CLI mode error: " + str(e)`.  Malformed JSON is the case in
which `json.loads` raises. -/
theorem C3_cli_protocol (cenv : CliEnv) (stdin : String) :
    ((run_cli_mode cenv stdin).2 = 0 ∨ (run_cli_mode cenv stdin).2 = 1) ∧
    (∀ inp, cenv.parse stdin = Except.ok inp → (run_cli_mode cenv stdin).2 = 0) ∧
    (∀ e, cenv.parse stdin = Except.error e →
      run_cli_mode cenv stdin = (failureEnvelope ("CLI mode error: " ++ e), 1) ∧
      (failureEnvelope ("CLI mode error: " ++ e)).success = false ∧
      (failureEnvelope ("CLI mode error: " ++ e)).error =
        some ("CLI mode error: " ++ e) ∧
      "CLI mode error: " ++ e ≠ "") := by
  cases hp : cenv.parse stdin with
  | ok inp =>
    have hrun : (run_cli_mode cenv stdin).2 = 0 := by
      unfold run_cli_mode
      rw [hp]
    refine ⟨Or.inl hrun, fun _ _ => hrun, fun e he => ?_⟩
    exact Except.noConfusion he
  | error e0 =>
    have hrun : run_cli_mode cenv stdin =
        (failureEnvelope ("CLI mode error: " ++ e0), 1) := by
      unfold run_cli_mode
      rw [hp]
    refine ⟨Or.inr (by rw [hrun]), fun inp hin => ?_, fun e he => ?_⟩
    · exact Except.noConfusion hin
    · have hee : e0 = e := by
        cases he
        rfl
      subst hee
      refine ⟨hrun, rfl, rfl, fun hempty => ?_⟩
      have hlen : ("CLI mode error: " ++ e0).length = 0 := by rw [hempty]; rfl
      rw [String.length_append] at hlen
      have h16 : ("CLI mode error: " : String).length = 16 := rfl
      rw [h16] at hlen
      omega

/-- C4: a raised exception anywhere inside the `try:` of either entry point
is caught and produces the failure envelope: `success = false`, the error
string, and all six result arrays empty; an error of the geometry
constructor (or, by the hypotheses, of any evaluator call reached through
the bodies) aborts the whole batch.  Both Lean functions are total, so no
exception propagates to the caller. -/
theorem C4_exception_yields_empty_envelope (env : Env)
    (x_coords y_coords values re_values : List ℚ)
    (n_crit xtr_top xtr_bot mach : ℚ) (model_size : String) (e : String) :
    (env.mkAirfoil x_coords y_coords = Except.error e →
      analyzeAtClsBody env x_coords y_coords values re_values
        n_crit xtr_top xtr_bot mach model_size = Except.error e ∧
      analyzeAtAlphasBody env x_coords y_coords values re_values
        n_crit xtr_top xtr_bot mach model_size = Except.error e) ∧
    (analyzeAtClsBody env x_coords y_coords values re_values
        n_crit xtr_top xtr_bot mach model_size = Except.error e →
      analyze_foil_at_cls env x_coords y_coords values re_values
        n_crit xtr_top xtr_bot mach model_size = failureEnvelope e) ∧
    (analyzeAtAlphasBody env x_coords y_coords values re_values
        n_crit xtr_top xtr_bot mach model_size = Except.error e →
      analyze_foil_at_alphas env x_coords y_coords values re_values
        n_crit xtr_top xtr_bot mach model_size = failureEnvelope e) ∧
    ((failureEnvelope e).success = false ∧ (failureEnvelope e).error = some e ∧
      (failureEnvelope e).alpha = [] ∧ (failureEnvelope e).cd = [] ∧
      (failureEnvelope e).cl = [] ∧ (failureEnvelope e).cm = [] ∧
      (failureEnvelope e).xtr_top = [] ∧ (failureEnvelope e).xtr_bot = []) := by
  refine ⟨fun hmk => ?_, fun hb => ?_, fun hb => ?_,
    rfl, rfl, rfl, rfl, rfl, rfl, rfl, rfl⟩
  · constructor
    · unfold analyzeAtClsBody
      rw [hmk]
    · unfold analyzeAtAlphasBody
      rw [hmk]
  · unfold analyze_foil_at_cls
    rw [hb]
  · unfold analyze_foil_at_alphas
    rw [hb]

/-- C5: the updated alpha is clamped to [-20, 20] after every update step,
for all inputs — any value of the pre-update alpha, the target (including
pathological ones such as target_cl = 100) and the evaluated CL — both for
one raw update and for every post-update element of the solver's alpha
sequence. -/
theorem C5_update_always_clamped (f : ℚ → AeroPoint)
    (target_cl a cl_result : ℚ) (n : Nat) :
    (-20 ≤ clamp (a + (target_cl - cl_result) * 10) ∧
      clamp (a + (target_cl - cl_result) * 10) ≤ 20) ∧
    (-20 ≤ alphaSeq f target_cl a (n + 1) ∧ alphaSeq f target_cl a (n + 1) ≤ 20) := by
  have hb : ∀ x : ℚ, -20 ≤ clamp x ∧ clamp x ≤ 20 := by
    intro x
    refine ⟨le_max_left _ _, max_le (by norm_num) (min_le_left _ _)⟩
  exact ⟨hb _, by rw [alphaSeq]; exact hb _⟩

/-- C6 amended: every successful station result carries the `aero` of the
final evaluator call, made at some angle `af` (so cd, cl, cm, xtr_top,
xtr_bot all belong to one evaluation); on a converged exit
(`abs(target_cl - CL) < 0.001`) the reported alpha equals `af`, but on
iteration exhaustion it is the once-more-updated clamped value
`clamp(af + (target_cl - CL) * 10)`, which does not in general equal `af`;
the returned dictionary has no converged flag, so the two exits are not
otherwise distinguished. -/
theorem C6_amended_final_point (ev : ℚ → Except String AeroPoint)
    (t a a' : ℚ) (p : AeroPoint) (fuel : Nat)
    (h : solveLoop ev t fuel a = Except.ok (a', p)) :
    ∃ af, ev af = Except.ok p ∧
      ((absQ (t - p.CL) < 1/1000 ∧ a' = af) ∨
       (¬ absQ (t - p.CL) < 1/1000 ∧ a' = clamp (af + (t - p.CL) * 10))) :=
  solveLoop_ok_shape ev t fuel a a' p h

/-- C7: the batch alpha-sweep mode returns, on a run in which neither the
geometry constructor nor the single batched evaluator call raises, exactly
the evaluator's arrays with `alpha` the input `alpha_values` itself — no
root-finding iteration touches them — and, whenever the evaluator returns
arrays parallel to its input (as NeuralFoil's vectorized call does), every
one of the six output arrays has the length of `alpha_values`, stations in
input order. -/
theorem C7_alpha_sweep_shape (env : Env)
    (x_coords y_coords alpha_values re_values : List ℚ)
    (n_crit xtr_top xtr_bot mach : ℚ) (model_size : String) (b : BatchAero)
    (hgeo : env.mkAirfoil x_coords y_coords = Except.ok ())
    (hb : env.evalBatch alpha_values re_values mach n_crit xtr_top xtr_bot
      model_size = Except.ok b)
    (hlen : b.CL.length = alpha_values.length ∧ b.CD.length = alpha_values.length ∧
      b.CM.length = alpha_values.length ∧ b.Top_Xtr.length = alpha_values.length ∧
      b.Bot_Xtr.length = alpha_values.length) :
    analyze_foil_at_alphas env x_coords y_coords alpha_values re_values
        n_crit xtr_top xtr_bot mach model_size =
      { success := true, error := none, alpha := alpha_values, cd := b.CD,
        cl := b.CL, cm := b.CM, xtr_top := b.Top_Xtr, xtr_bot := b.Bot_Xtr } ∧
    (analyze_foil_at_alphas env x_coords y_coords alpha_values re_values
        n_crit xtr_top xtr_bot mach model_size).alpha = alpha_values ∧
    (analyze_foil_at_alphas env x_coords y_coords alpha_values re_values
        n_crit xtr_top xtr_bot mach model_size).alpha.length = alpha_values.length ∧
    (analyze_foil_at_alphas env x_coords y_coords alpha_values re_values
        n_crit xtr_top xtr_bot mach model_size).cd.length = alpha_values.length ∧
    (analyze_foil_at_alphas env x_coords y_coords alpha_values re_values
        n_crit xtr_top xtr_bot mach model_size).cl.length = alpha_values.length ∧
    (analyze_foil_at_alphas env x_coords y_coords alpha_values re_values
        n_crit xtr_top xtr_bot mach model_size).cm.length = alpha_values.length ∧
    (analyze_foil_at_alphas env x_coords y_coords alpha_values re_values
        n_crit xtr_top xtr_bot mach model_size).xtr_top.length = alpha_values.length ∧
    (analyze_foil_at_alphas env x_coords y_coords alpha_values re_values
        n_crit xtr_top xtr_bot mach model_size).xtr_bot.length = alpha_values.length := by
  obtain ⟨h1, h2, h3, h4, h5⟩ := hlen
  have hres : analyze_foil_at_alphas env x_coords y_coords alpha_values re_values
      n_crit xtr_top xtr_bot mach model_size =
      { success := true, error := none, alpha := alpha_values, cd := b.CD,
        cl := b.CL, cm := b.CM, xtr_top := b.Top_Xtr, xtr_bot := b.Bot_Xtr } := by
    unfold analyze_foil_at_alphas analyzeAtAlphasBody
    rw [hgeo, hb]
  rw [hres]
  exact ⟨rfl, rfl, rfl, h2, h1, h3, h4, h5⟩

/-- C8: convergence is idempotent: if the loop is started at an alpha whose
evaluation already satisfies `abs(target_cl - CL) < 0.001`, it stops on its
first evaluation without changing alpha; in particular, re-solving with the
achieved CL as the new target from the converged alpha as the new guess
succeeds on the first evaluation — at most one additional iteration. -/
theorem C8_reconverge_within_one_iteration (ev : ℚ → Except String AeroPoint)
    (t a : ℚ) (p : AeroPoint) (fuel : Nat) (hev : ev a = Except.ok p) :
    (absQ (t - p.CL) < 1/1000 → solveLoop ev t fuel a = Except.ok (a, p)) ∧
    solveLoop ev p.CL fuel a = Except.ok (a, p) := by
  refine ⟨fun h => solveLoop_converged_first ev t fuel a p hev h, ?_⟩
  refine solveLoop_converged_first ev p.CL fuel a p hev ?_
  rw [sub_self]
  simp only [absQ]
  rw [if_neg (lt_irrefl 0)]
  norm_num

/-- C9: the initial guess is never clamped: the station loop starts exactly
at `target_cl * 10.0` (first conjunct, definitional); the first evaluator
call of the station is made at that angle (second conjunct: an evaluator
error at `target_cl * 10` is the station's result); and if convergence
happens on that first evaluation, the returned alpha is `target_cl * 10`,
which for `abs(target_cl) > 2` lies outside [-20, 20] — e.g. target_cl =
100 evaluates first at alpha = 1000. -/
theorem C9_initial_guess_never_clamped (ev : ℚ → Except String AeroPoint)
    (t : ℚ) (p : AeroPoint) (e : String) (ht : 2 < absQ t) :
    solveStation ev t = solveLoop ev t 19 (t * 10) ∧
    (ev (t * 10) = Except.error e → solveStation ev t = Except.error e) ∧
    (ev (t * 10) = Except.ok p → absQ (t - p.CL) < 1/1000 →
      solveStation ev t = Except.ok (t * 10, p) ∧ (t * 10 < -20 ∨ 20 < t * 10)) := by
  refine ⟨rfl, fun he => solveLoop_first_call_error ev t 19 (t * 10) e he,
    fun hev hconv => ⟨solveLoop_converged_first ev t 19 (t * 10) p hev hconv, ?_⟩⟩
  unfold absQ at ht
  by_cases h0 : t < 0
  · rw [if_pos h0] at ht
    left
    linarith
  · rw [if_neg h0] at ht
    right
    linarith

/-- C10: for every run of `analyze_foil_at_cls` whose `try:` body completes,
each of the six output arrays has length `len(cl_values)` (one entry per
station, in input order); an empty `cl_values` yields `success = true` with
all six arrays empty, and makes no evaluator call: the empty-batch result is
the same for any two environments sharing the geometry constructor,
whatever their evaluators do. -/
theorem C10_output_array_shapes (env env2 env3 : Env)
    (x_coords y_coords cl_values re_values : List ℚ)
    (n_crit xtr_top xtr_bot mach : ℚ) (model_size : String) (r : AnalyzeResult)
    (h : analyzeAtClsBody env x_coords y_coords cl_values re_values
        n_crit xtr_top xtr_bot mach model_size = Except.ok r)
    (hmk : env2.mkAirfoil x_coords y_coords = Except.ok ())
    (hsame : env3.mkAirfoil = env2.mkAirfoil) :
    (r.alpha.length = cl_values.length ∧ r.cd.length = cl_values.length ∧
      r.cl.length = cl_values.length ∧ r.cm.length = cl_values.length ∧
      r.xtr_top.length = cl_values.length ∧ r.xtr_bot.length = cl_values.length) ∧
    analyze_foil_at_cls env2 x_coords y_coords [] re_values
        n_crit xtr_top xtr_bot mach model_size =
      { success := true, error := none, alpha := [], cd := [], cl := [],
        cm := [], xtr_top := [], xtr_bot := [] } ∧
    analyze_foil_at_cls env3 x_coords y_coords [] re_values
        n_crit xtr_top xtr_bot mach model_size =
      analyze_foil_at_cls env2 x_coords y_coords [] re_values
        n_crit xtr_top xtr_bot mach model_size := by
  obtain ⟨stations, hst, hr⟩ :=
    analyzeAtClsBody_ok_shape env x_coords y_coords cl_values re_values
      n_crit xtr_top xtr_bot mach model_size r h
  have hslen := stationsLoop_length _ _ _ _ hst
  have hempty : ∀ env' : Env, env'.mkAirfoil x_coords y_coords = Except.ok () →
      analyze_foil_at_cls env' x_coords y_coords [] re_values
        n_crit xtr_top xtr_bot mach model_size =
      { success := true, error := none, alpha := [], cd := [], cl := [],
        cm := [], xtr_top := [], xtr_bot := [] } := by
    intro env' hmk'
    unfold analyze_foil_at_cls analyzeAtClsBody
    rw [hmk']
    simp only [stationsLoop, List.map_nil]
  refine ⟨?_, hempty env2 hmk, ?_⟩
  · rw [hr]
    simp only [List.length_map]
    exact ⟨hslen, hslen, hslen, hslen, hslen, hslen⟩
  · rw [hempty env2 hmk, hempty env3 (by rw [hsame]; exact hmk)]

section ConcreteRuns

set_option maxRecDepth 400000

attribute [local semireducible] Rat.mul Rat.inv Rat.add Rat.sub

/-- A run on a station that can never converge (target 1, CL identically 0):
the 20-iteration cap is exhausted and success is still true. -/
theorem C1_witness :
    analyze_foil_at_cls envZero [] [] [1] [1000000] 9 1 1 0 "xlarge" = rOneStation ∧
    rOneStation.success = true ∧
    rOneStation.alpha.length = ([1] : List ℚ).length :=
  C1_success_means_ran_without_raising envZero [] [] [1] [1000000] 9 1 1 0 "xlarge"
    rOneStation (by decide)

/-- The solver schema applied at the linear evaluator and target 0.5:
convergence at the very first evaluation, alpha = 0.5 * 10 unchanged. -/
theorem C2_witness :
    solveStation (pureEv fLin) (1/2) =
      Except.ok (alphaSeq fLin (1/2) ((1/2) * 10) 0,
        fLin (alphaSeq fLin (1/2) ((1/2) * 10) 0)) :=
  (C2_solver_iteration_schema fLin (1/2)).2.2.1 0 (Nat.zero_le 19)
    (fun m hm => absurd hm (Nat.not_lt_zero m)) (by decide)

/-- A malformed-JSON run of CLI mode: one failure envelope and exit code 1. -/
theorem C3_witness :
    run_cli_mode cenvBad "not valid json" =
      (failureEnvelope
        ("CLI mode error: " ++ "Expecting value: line 1 column 1 (char 0)"), 1) :=
  ((C3_cli_protocol cenvBad "not valid json").2.2
    "Expecting value: line 1 column 1 (char 0)" rfl).1

/-- Concrete aborted batches: the evaluator raises on the first station of
the Cl solve, and the one batched call raises in the alpha sweep. -/
theorem C4_witness :
    analyze_foil_at_cls envRaise [] [] [1/2, 3/5] [5, 6] 9 1 1 0 "xlarge" =
      failureEnvelope "degenerate geometry" ∧
    analyze_foil_at_alphas envRaise [] [] [1/2, 3/5] [5, 6] 9 1 1 0 "xlarge" =
      failureEnvelope "degenerate geometry" :=
  ⟨(C4_exception_yields_empty_envelope envRaise [] [] [1/2, 3/5] [5, 6]
      9 1 1 0 "xlarge" "degenerate geometry").2.1 (by decide),
   (C4_exception_yields_empty_envelope envRaise [] [] [1/2, 3/5] [5, 6]
      9 1 1 0 "xlarge" "degenerate geometry").2.2.1 (by decide)⟩

/-- C6 as stated is false on the code: with the shallow-slope evaluator
(CL = alpha/100, so an evaluation at angle `a` reports CL = a/100) and
target_cl = 0.1, the station exhausts the 20 iterations and the reported
alpha is the post-update clamped value: the reported cl is not the CL of an
evaluation made at the reported alpha. -/
theorem C6_counterexample :
    (analyze_foil_at_cls envShallow [] [] [1/10] [1000000] 9 1 1 0 "xlarge").cl ≠
      (analyze_foil_at_cls envShallow [] [] [1/10] [1000000] 9 1 1 0
        "xlarge").alpha.map (fun a => (fShallow a).CL) := by
  decide

/-- The amended C6 applied at a converged concrete run. -/
theorem C6_amended_witness :
    ∃ af, pureEv fLin af = Except.ok (fLin 5) ∧
      ((absQ ((1/2) - (fLin 5).CL) < 1/1000 ∧ (5 : ℚ) = af) ∨
       (¬ absQ ((1/2) - (fLin 5).CL) < 1/1000 ∧
         (5 : ℚ) = clamp (af + ((1/2) - (fLin 5).CL) * 10))) :=
  C6_amended_final_point (pureEv fLin) (1/2) 5 5 (fLin 5) 19 (by decide)

/-- A concrete alpha sweep over three stations. -/
theorem C7_witness :
    analyze_foil_at_alphas envSweep [] [] [0, 5, -3] [1, 2, 3] 9 1 1 0 "xlarge" =
      { success := true, error := none, alpha := [0, 5, -3], cd := bSweep.CD,
        cl := bSweep.CL, cm := bSweep.CM, xtr_top := bSweep.Top_Xtr,
        xtr_bot := bSweep.Bot_Xtr } ∧
    (analyze_foil_at_alphas envSweep [] [] [0, 5, -3] [1, 2, 3] 9 1 1 0
      "xlarge").alpha = [0, 5, -3] ∧
    (analyze_foil_at_alphas envSweep [] [] [0, 5, -3] [1, 2, 3] 9 1 1 0
      "xlarge").alpha.length = ([0, 5, -3] : List ℚ).length ∧
    (analyze_foil_at_alphas envSweep [] [] [0, 5, -3] [1, 2, 3] 9 1 1 0
      "xlarge").cd.length = ([0, 5, -3] : List ℚ).length ∧
    (analyze_foil_at_alphas envSweep [] [] [0, 5, -3] [1, 2, 3] 9 1 1 0
      "xlarge").cl.length = ([0, 5, -3] : List ℚ).length ∧
    (analyze_foil_at_alphas envSweep [] [] [0, 5, -3] [1, 2, 3] 9 1 1 0
      "xlarge").cm.length = ([0, 5, -3] : List ℚ).length ∧
    (analyze_foil_at_alphas envSweep [] [] [0, 5, -3] [1, 2, 3] 9 1 1 0
      "xlarge").xtr_top.length = ([0, 5, -3] : List ℚ).length ∧
    (analyze_foil_at_alphas envSweep [] [] [0, 5, -3] [1, 2, 3] 9 1 1 0
      "xlarge").xtr_bot.length = ([0, 5, -3] : List ℚ).length :=
  C7_alpha_sweep_shape envSweep [] [] [0, 5, -3] [1, 2, 3] 9 1 1 0 "xlarge"
    bSweep rfl (by decide) (by decide)

/-- Re-solving for the CL achieved at alpha = 5 from alpha = 5 itself:
immediate convergence. -/
theorem C8_witness :
    solveLoop (pureEv fLin) ((fLin 5).CL) 19 5 = Except.ok (5, fLin 5) :=
  (C8_reconverge_within_one_iteration (pureEv fLin) (1/2) 5 (fLin 5) 19 rfl).2

/-- target_cl = 100: the first (and here only) evaluator call is at
alpha = 1000, far outside [-20, 20], and the returned alpha is 1000. -/
theorem C9_witness :
    solveStation evOnly1000 100 = Except.ok (100 * 10, ⟨100, 1, 2, 3, 4⟩) ∧
    ((100 : ℚ) * 10 < -20 ∨ 20 < (100 : ℚ) * 10) :=
  (C9_initial_guess_never_clamped evOnly1000 100 ⟨100, 1, 2, 3, 4⟩
    "unexpected alpha" (by decide)).2.2 (by decide) (by decide)

/-- Shapes on a two-station batch, plus the empty batch evaluated under two
environments: one whose evaluator is total and one whose evaluator raises on
any call — with no station, the evaluator is never consulted. -/
theorem C10_witness :
    (rTwoStations.alpha.length = ([1, 1/2] : List ℚ).length ∧
      rTwoStations.cd.length = ([1, 1/2] : List ℚ).length ∧
      rTwoStations.cl.length = ([1, 1/2] : List ℚ).length ∧
      rTwoStations.cm.length = ([1, 1/2] : List ℚ).length ∧
      rTwoStations.xtr_top.length = ([1, 1/2] : List ℚ).length ∧
      rTwoStations.xtr_bot.length = ([1, 1/2] : List ℚ).length) ∧
    analyze_foil_at_cls envZero [] [] [] [5, 6] 9 1 1 0 "xlarge" =
      { success := true, error := none, alpha := [], cd := [], cl := [],
        cm := [], xtr_top := [], xtr_bot := [] } ∧
    analyze_foil_at_cls envRaise [] [] [] [5, 6] 9 1 1 0 "xlarge" =
      analyze_foil_at_cls envZero [] [] [] [5, 6] 9 1 1 0 "xlarge" :=
  C10_output_array_shapes envZero envZero envRaise [] [] [1, 1/2] [5, 6]
    9 1 1 0 "xlarge" rTwoStations (by decide) rfl rfl

end ConcreteRuns

end NeuralfoilBridge
